import Mathlib

/-!
Verification of the skiba coordinate-obfuscation / extraction core.

The Python source is shallowly embedded over exact rational arithmetic:
* `Pt` models a shapely `Point` (`x` = longitude/easting, `y` = latitude/northing).
* Floating-point trigonometry is modelled by passing each random draw as a
  triple `(c, s, d)` with `c = cos angle`, `s = sin angle` (constrained by
  `c^2 + s^2 = 1`) and `d` the drawn distance.
* `pyproj` transformers are abstracted as functions `Pt → Pt`; theorems that
  need them assume injectivity (the spec's round-trip law).
* Remote Earth-Engine calls are modelled by an oracle recording which of the
  three loaders would succeed, and catalog HTTP requests by an explicit
  request count.
-/

namespace Skiba

/-- A point in the plane: `x` is longitude (or easting), `y` is latitude
(or northing), matching shapely's `Point(x, y)` convention used by
`gpd.points_from_xy(LON, LAT)`. -/
structure Pt where
  x : ℚ
  y : ℚ
deriving DecidableEq, Repr

/-- One Monte-Carlo draw of `buffer.create_obfuscated_points` /
`buffer_coordinates.create_obfuscated_circle`: `c = cos(angle)`,
`s = sin(angle)` for `angle ~ Uniform[0, 2*pi)` and `d ~ Uniform[0, radius_m)`.
The trigonometric identity `c^2 + s^2 = 1` is imposed as a hypothesis where
needed. -/
structure Draw where
  c : ℚ
  s : ℚ
  d : ℚ
deriving DecidableEq, Repr

/-- `radius_m = radius_feet * 0.3048` (buffer_and_sample.py line 171);
`0.3048 = 381/1250` exactly. -/
def radiusMeters (radius_feet : ℚ) : ℚ := radius_feet * (381 / 1250)

/-- The circle center computed from one draw (buffer_and_sample.py lines
186-188): `center = (x - d*cos(angle), y - d*sin(angle))` offset from the
projected input point `xy`. -/
def obfuscatedCenter (xy : Pt) (dr : Draw) : Pt :=
  ⟨xy.x - dr.d * dr.c, xy.y - dr.d * dr.s⟩

/-- Squared Euclidean distance in the projected frame. -/
def sqDist (a b : Pt) : ℚ := (a.x - b.x) ^ 2 + (a.y - b.y) ^ 2

namespace BufferAndSample

/-- `buffer.create_obfuscated_points` (buffer_and_sample.py lines 165-193):
projects the input point to `xy` in the local UTM frame, then for each of
`no_samp` iterations draws a random angle and distance, computes a center
offset from `xy`, and reprojects it with `toLatlon`
(`transformer_to_latlon`).  The Python loop `for no in range(no_samp)` with a
fresh random draw each iteration is modelled by the stream `draws`; a
non-positive `no_samp` gives an empty `range`, hence `Int.toNat`.  No
parameter validation is performed by the source. -/
def create_obfuscated_points (toLatlon : Pt → Pt) (xy : Pt) (no_samp : ℤ)
    (draws : ℕ → Draw) : List Pt :=
  (List.range no_samp.toNat).map fun i => toLatlon (obfuscatedCenter xy (draws i))

end BufferAndSample

namespace Common

/-- `common.validate_buffer_radius` (common.py lines 114-142).  The
`isinstance` type check is enforced by Lean's types and not modelled; the two
value checks are appended in source order. -/
def validate_buffer_radius (radius : ℚ) : List String :=
  (if radius ≤ 0 then ["Buffer radius must be positive, got " ++ toString radius]
   else []) ++
  (if radius > 5280 then
    ["Buffer radius of " ++ toString radius ++
      " feet exceeds 1 mile. This may result in very large areas and slow processing."]
   else [])

/-- `common.validate_sample_count` (common.py lines 145-173).  The
`isinstance` type check is enforced by Lean's types and not modelled. -/
def validate_sample_count (count : ℤ) : List String :=
  (if count ≤ 0 then ["Sample count must be positive, got " ++ toString count]
   else []) ++
  (if count > 100 then
    ["Sample count of " ++ toString count ++
      " is large. This may result in slow processing and large output files."]
   else [])

/-- `common.validate_date_range` (common.py lines 64-111).  Dates are
modelled as integer ordinals (`date` objects compare chronologically); the
string-parsing branch, which only converts `YYYY-MM-DD` strings into `date`
objects or reports a format error, is not modelled. -/
def validate_date_range (startDate endDate : Option ℤ) : List String :=
  match startDate, endDate with
  | Option.none, Option.none => []
  | Option.none, some _ => ["Start date is required when end date is provided"]
  | some _, Option.none => ["End date is required when start date is provided"]
  | some s, some e =>
      if s > e then
        ["Start date (" ++ toString s ++ ") must be before or equal to end date (" ++
          toString e ++ ")"]
      else []

end Common

/-- The UTM zone number computed by
`int((point.x + 180) // 6) + 1` (buffer_and_sample.py line 174,
buffer_coordinates.py line 128, geojson_buffering.py line 153): floor
division of the shifted longitude by 6, plus one. -/
def utmZone (lon : ℚ) : ℤ := ⌊(lon + 180) / 6⌋ + 1

/-- The projected-frame identifier built by the f-string
`f"EPSG:326{int((point.x + 180) // 6) + 1}"`: the literal text `EPSG:326`
concatenated with the decimal rendering of the zone number.  Only the
point's `x` (longitude) is consulted; `y` (latitude) never is. -/
def utm_crs (p : Pt) : String := "EPSG:326" ++ toString (utmZone p.x)

/-- The intended five-digit EPSG code of the northern UTM zone for this
longitude (EPSG 32601 … 32660), per the spec's description of a locally
accurate projected reference frame for the point's longitude.  Used only to
compare the constructed identifier against the intended one. -/
def intendedUtmCrs (lon : ℚ) : String := "EPSG:" ++ toString (32600 + utmZone lon)

/-- A Python value as it flows through `PointExtraction.load_gee_as_image`:
`None`, a string, or a `date` (modelled as an integer ordinal). -/
inductive PyVal where
  | pynone
  | pystr (s : String)
  | pydate (d : ℤ)
deriving DecidableEq, Repr

/-- Python's `str(...)`: `str(None) = "None"`, a string is unchanged, a date
renders as text.  Always returns a string value. -/
def pyStr : PyVal → PyVal
  | PyVal.pynone => PyVal.pystr "None"
  | PyVal.pystr s => PyVal.pystr s
  | PyVal.pydate d => PyVal.pystr (toString d)

/-- Python's `x is not None` test. -/
def isNotNone : PyVal → Bool
  | PyVal.pynone => false
  | _ => true

/-- Python truthiness of an optional string (`if start_date and end_date:`
in data_process.py line 213): `None` and the empty string are falsy. -/
def pyTruthy : Option String → Bool
  | Option.none => false
  | some s => s != ""

/-- The composite raster produced by a loader: a directly loaded `ee.Image`,
a (possibly date-filtered) per-pixel median of an `ee.ImageCollection`, or an
`ee.FeatureCollection` rasterized by burning a constant value per feature
(`reduceToImage(properties=[], reducer=ee.Reducer.constant(1))`). -/
inductive EEImage where
  | image (id : String)
  | medianOf (id : String) (dateFilter : Option (PyVal × PyVal))
  | rasterized (id : String) (burnValue : ℤ)
deriving DecidableEq, Repr

namespace PointExtraction

/-- `PointExtraction.load_gee_as_image` (point_extraction.py lines 172-202),
the typed dispatch on the catalog-resolved dataset type.  The source first
runs `start_date = str(start_date); end_date = str(end_date)`, and only then
tests `start_date is not None and end_date is not None` — a test on the
stringified values.  `image` loads the raster directly; `image_collection`
filters (per that test) and reduces by median; every other resolved type
raises `ValueError`. -/
def load_gee_as_image (data_type dataset_id : String)
    (start_date end_date : PyVal) : Except String EEImage :=
  let s := pyStr start_date
  let e := pyStr end_date
  if data_type = "image" then
    Except.ok (EEImage.image dataset_id)
  else if data_type = "image_collection" then
    let filt := if isNotNone s && isNotNone e then some (s, e) else Option.none
    Except.ok (EEImage.medianOf dataset_id filt)
  else
    Except.error "Dataset ID is not a valid Image or ImageCollection."

end PointExtraction

/-- Records which of the three remote probes (`ee.Image(...).getInfo()`,
`ee.ImageCollection(...).median().getInfo()`,
`ee.FeatureCollection(...).reduceToImage(...).getInfo()`) would succeed for a
given dataset id — the remote service's behaviour, which the source only
observes through thrown exceptions. -/
structure GeeOracle where
  imageOk : Bool
  collectionOk : Bool
  featureOk : Bool
deriving DecidableEq, Repr

/-- One load strategy attempted by the untyped prober. -/
inductive Strategy where
  | image
  | imageCollection
  | featureCollection
deriving DecidableEq, Repr

namespace DataProcess

/-- `data_process.load_gee_as_image` (data_process.py lines 187-235; the same
code appears in buffer_method.py lines 211-258): try `ee.Image`, on any
exception try `ee.ImageCollection` (date-filtered when both dates are truthy,
then median), on any exception try `ee.FeatureCollection` rasterized by
burning the constant 1, and raise `ValueError` when that too fails.  Returns
the result together with the list of strategies attempted, in order. -/
def load_gee_as_image (o : GeeOracle) (dataset_id : String)
    (start_date end_date : Option String) : Except String EEImage × List Strategy :=
  if o.imageOk then
    (Except.ok (EEImage.image dataset_id), [Strategy.image])
  else if o.collectionOk then
    let filt : Option (PyVal × PyVal) :=
      if pyTruthy start_date && pyTruthy end_date then
        some (PyVal.pystr (start_date.getD ""), PyVal.pystr (end_date.getD ""))
      else Option.none
    (Except.ok (EEImage.medianOf dataset_id filt),
      [Strategy.image, Strategy.imageCollection])
  else if o.featureOk then
    (Except.ok (EEImage.rasterized dataset_id 1),
      [Strategy.image, Strategy.imageCollection, Strategy.featureCollection])
  else
    (Except.error "Dataset ID is not a valid Image, ImageCollection, or FeatureCollection.",
      [Strategy.image, Strategy.imageCollection, Strategy.featureCollection])

end DataProcess

/-- One record of the remote catalog's JSON array (`{id, title, type, url}`;
the fields used by the dropdown handler). -/
structure CatalogItem where
  id : String
  title : String
  url : String
deriving DecidableEq, Repr

namespace BufferCoordinates

/-- The id-to-url lookup built by
`data_dict = {item["id"]: item["url"] for item in data if "id" in item}`
followed by `data_dict.get(change_value)` (buffer_coordinates.py lines
113-115).  A Python dict comprehension keeps the last occurrence of a
duplicated key, hence the reversed search. -/
def catalogUrlFor (data : List CatalogItem) (dataset_id : String) : Option String :=
  ((data.filter fun it => it.id == dataset_id).getLast?).map CatalogItem.url

/-- `buffer_coordinates.on_dropdown_change` (buffer_coordinates.py lines
104-117): when the new dropdown value is truthy, the handler calls
`self.fetch_geojson(catalog)` — an unconditional `requests.get` of the
catalog URL — rebuilds the id-to-url dict from the response, and looks the
value up.  Returns the looked-up url together with the number of catalog
requests this invocation issues (1 when the value is truthy, else 0). -/
def on_dropdown_change (network : List CatalogItem) (changeNew : String) :
    Option String × ℕ :=
  if changeNew != "" then (catalogUrlFor network changeNew, 1)
  else (Option.none, 0)

/-- Total number of catalog requests a `buffer_coordinates` process issues:
one during `__init__` (line 32) plus those of each dropdown-change event. -/
def totalCatalogFetches (network : List CatalogItem) (events : List String) : ℕ :=
  1 + (events.map fun e => (on_dropdown_change network e).2).sum

end BufferCoordinates

/-- The vertex ring of shapely's `center.buffer(radius_m, resolution=32)`
with the trigonometric table abstracted: vertices at distance `r` from
`center` in the unit directions `dirs`.  The table is a parameter here only
for statements universally quantified over every admissible table (shapely's
real table, with its irrational entries, is among them); the exact
`resolution=32` table itself is modelled in `RealModel`. -/
def bufferPolygon (center : Pt) (r : ℚ) (dirs : List Pt) : List Pt :=
  dirs.map fun u => ⟨center.x + r * u.x, center.y + r * u.y⟩

/-- The cyclically consecutive vertex pairs of a polygon ring. -/
def edgesOf (poly : List Pt) : List (Pt × Pt) := poly.zip (poly.rotate 1)

/-- Twice the signed area of the triangle `o a b`; positive when `b` lies
strictly to the left of the directed line `o → a` … i.e. the standard
orientation test. -/
def crossAt (o a b : Pt) : ℚ :=
  (a.x - o.x) * (b.y - o.y) - (a.y - o.y) * (b.x - o.x)

/-- Shapely's strict `polygon.contains(point)` for a convex
counter-clockwise ring: the point lies strictly to the left of every
directed edge.  (Decidable by the ambient instances on bounded
quantification over a list.) -/
def containsPoint (poly : List Pt) (p : Pt) : Prop :=
  ∀ e ∈ edgesOf poly, 0 < crossAt e.1 e.2 p

/-- The direction table is counter-clockwise: every cyclically consecutive
pair of directions turns left. -/
def ccwDirs (dirs : List Pt) : Prop :=
  ∀ e ∈ edgesOf dirs, 0 < e.1.x * e.2.y - e.1.y * e.2.x

namespace RealModel

/-- Exact-real model of the center-randomized circle builder
(`buffer_coordinates.create_obfuscated_circle`, buffer_coordinates.py lines
119-148).  The source computes with floating-point trigonometry and buffers
with shapely's fixed `resolution=32` table of `4*32 = 128` vertices at angles
`k * 2*pi/128` (a vertex at angle 0), which are irrational, so this variant
is embedded over `ℝ` with `Real.cos`/`Real.sin` — hence `noncomputable` —
rather than over `ℚ` with a parametric table. -/
structure Pt where
  x : ℝ
  y : ℝ

/-- The orientation test of `Skiba.crossAt`, over `ℝ`. -/
def crossAt (o a b : Pt) : ℝ :=
  (a.x - o.x) * (b.y - o.y) - (a.y - o.y) * (b.x - o.x)

/-- The cyclically consecutive vertex pairs of a polygon ring, over `ℝ`. -/
def edgesOf (poly : List Pt) : List (Pt × Pt) := poly.zip (poly.rotate 1)

/-- Shapely's strict `polygon.contains(point)` for a convex ring, over `ℝ`
(the ring is modelled counter-clockwise; orientation is a representation
choice and does not affect point-in-polygon semantics). -/
def containsPoint (poly : List Pt) (p : Pt) : Prop :=
  ∀ e ∈ edgesOf poly, 0 < crossAt e.1 e.2 p

/-- `radius_m = radius_feet * 0.3048`, over `ℝ`. -/
noncomputable def radiusMeters (radius_feet : ℝ) : ℝ := radius_feet * (381 / 1250)

/-- Vertex `k` of shapely's `center.buffer(r, resolution=32)` ring: the point
at distance `r` from `center` at angle `k * 2*pi/128` (GEOS places a vertex
at angle 0 and steps by `2*pi/(4*resolution)`). -/
noncomputable def shapelyVertex (center : Pt) (r : ℝ) (k : ℕ) : Pt :=
  ⟨center.x + r * Real.cos ((k : ℝ) * (2 * Real.pi / 128)),
   center.y + r * Real.sin ((k : ℝ) * (2 * Real.pi / 128))⟩

/-- The full 128-vertex ring of `center.buffer(r, resolution=32)`. -/
noncomputable def shapelyRing (center : Pt) (r : ℝ) : List Pt :=
  (List.range 128).map (shapelyVertex center r)

namespace BufferCoordinates

/-- `buffer_coordinates.create_obfuscated_circle` (buffer_coordinates.py
lines 119-148), exact-real model: project the point to `xy`, draw one random
`angle ~ Uniform[0, 2*pi)` and `distance ~ Uniform[0, radius_m)`, compute the
randomized center `(xy.x - distance*cos angle, xy.y - distance*sin angle)`,
buffer that center by `radius_m` with `resolution=32`, and reproject each
vertex with `toLatlon`. -/
noncomputable def create_obfuscated_circle (toLatlon : Pt → Pt) (xy : Pt)
    (radius_feet angle distance : ℝ) : List Pt :=
  (shapelyRing ⟨xy.x - distance * Real.cos angle, xy.y - distance * Real.sin angle⟩
    (radiusMeters radius_feet)).map toLatlon

end BufferCoordinates

end RealModel

namespace GeojsonBuffering

/-- `buffer_coordinates.create_obfuscated_circle` in geojson_buffering.py
(lines 144-173): the randomized-center block is commented out, so the buffer
is centered on the projected point itself (`center = Point(x, y)`), then each
vertex is reprojected with `toLatlon`. -/
def create_obfuscated_circle (toLatlon : Pt → Pt) (xy : Pt) (radius_feet : ℚ)
    (dirs : List Pt) : List Pt :=
  (bufferPolygon xy (radiusMeters radius_feet) dirs).map toLatlon

end GeojsonBuffering

/-- One input coordinate row after column normalization
(`LAT`, `LON`, `plot_ID`). -/
structure InputRow where
  plot_ID : String
  lat : ℚ
  lon : ℚ
deriving DecidableEq, Repr

/-- One GeoJSON point feature of the `FeatureCollection` built by
`gpd.points_from_xy(coordinates.LON, coordinates.LAT)` followed by
`gdf.__geo_interface__` and `gm.geojson_to_ee` — geometry `x` is the
longitude, `y` the latitude. -/
structure Feature where
  plot_ID : String
  x : ℚ
  y : ℚ
deriving DecidableEq, Repr

/-- One output record: the identifier and one value per band (`none` for a
missing value). -/
structure OutputRow where
  plot_ID : String
  bands : List (String × Option ℚ)
deriving DecidableEq, Repr

namespace DataProcess

/-- The order-preserving conversion of the coordinate table into point
features (data_process.py lines 108-126). -/
def toFeatures (rows : List InputRow) : List Feature :=
  rows.map fun r => ⟨r.plot_ID, r.lon, r.lat⟩

/-- Modelled from the spec: `geemap.extract_values_to_points` — the
`SampleOrReduce` operation of the remote imagery service — is an external
collaborator whose implementation is not under src/.  Per the spec's
ExtractionOrchestrator contract it emits exactly one record per input
feature, in input order, and a geometry that fails to intersect valid raster
data yields a row of missing values rather than being dropped.  `sample`
gives the remote per-feature outcome (`none` = no valid raster data). -/
def extract_values_to_points (sample : Feature → Option (List (String × ℚ)))
    (bandNames : List String) (fc : List Feature) : List OutputRow :=
  fc.map fun f =>
    match sample f with
    | some vals => ⟨f.plot_ID, vals.map fun p => (p.1, some p.2)⟩
    | Option.none => ⟨f.plot_ID, bandNames.map fun n => (n, Option.none)⟩

/-- `data_process.get_coordinate_data` (data_process.py lines 96-141),
restricted to its geometry flow: build the ordered feature collection from
the rows, then sample the composite at every feature in one call. -/
def get_coordinate_data (sample : Feature → Option (List (String × ℚ)))
    (bandNames : List String) (rows : List InputRow) : List OutputRow :=
  extract_values_to_points sample bandNames (toFeatures rows)

end DataProcess

/-! ## Theorems -/

/-- C2: the spec requires the obfuscation operation to fail with
InvalidParameter for `radius_feet ≤ 0` or `sample_count ≤ 0`.  The
validators in common.py do flag exactly these inputs, but
`buffer.create_obfuscated_points` never invokes them and has no failure
path: with `radius_feet = -1` and one sample it still returns a coordinate,
and with `sample_count = 0` it silently returns the empty list. -/
theorem c2_no_invalid_parameter_check :
    Common.validate_buffer_radius (-1) ≠ [] ∧
    Common.validate_sample_count 0 ≠ [] ∧
    (BufferAndSample.create_obfuscated_points (fun p => p) ⟨0, 0⟩ 1
      (fun _ => ⟨1, 0, -381/2500⟩)).length = 1 ∧
    BufferAndSample.create_obfuscated_points (fun p => p) ⟨0, 0⟩ 0
      (fun _ => ⟨1, 0, 0⟩) = [] :=
  ⟨by decide, by decide, by decide, rfl⟩

/-- C3: the spec requires `load()` on an `image_collection` to fail with
InvalidParameter on a reversed or one-sided date range, and to filter only
when both dates are given.  `common.validate_date_range` does flag exactly
those ranges, but `PointExtraction.load_gee_as_image` never invokes it:
because the dates are passed through `str(...)` before the `is not None`
test, the filter is applied unconditionally — with a reversed range, with a
one-sided range, and even with no dates at all (as `"None"`), and no error
is raised before the remote call. -/
theorem c3_date_validation_not_wired :
    Common.validate_date_range (some 20240101) Option.none ≠ [] ∧
    Common.validate_date_range Option.none (some 20240101) ≠ [] ∧
    Common.validate_date_range (some 20241231) (some 20240101) ≠ [] ∧
    PointExtraction.load_gee_as_image "image_collection" "MODIS/006/MOD13A2"
        (PyVal.pydate 20241231) (PyVal.pydate 20240101)
      = Except.ok (EEImage.medianOf "MODIS/006/MOD13A2"
          (some (PyVal.pystr "20241231", PyVal.pystr "20240101"))) ∧
    PointExtraction.load_gee_as_image "image_collection" "MODIS/006/MOD13A2"
        (PyVal.pydate 20240101) PyVal.pynone
      = Except.ok (EEImage.medianOf "MODIS/006/MOD13A2"
          (some (PyVal.pystr "20240101", PyVal.pystr "None"))) ∧
    PointExtraction.load_gee_as_image "image_collection" "MODIS/006/MOD13A2"
        PyVal.pynone PyVal.pynone
      = Except.ok (EEImage.medianOf "MODIS/006/MOD13A2"
          (some (PyVal.pystr "None", PyVal.pystr "None"))) :=
  ⟨by decide, by decide, by decide, rfl, rfl, rfl⟩

/-- C6 counterexample: for a dataset whose resolved type is
`feature_collection`, the typed loader does not rasterize — it fails
outright with the `ValueError` message (the repo's own test
`test_load_gee_as_image_invalid_dataset` asserts this raise). -/
theorem c6_counterexample_typed_loader_fails :
    PointExtraction.load_gee_as_image "feature_collection" "TIGER/2018/States"
        PyVal.pynone PyVal.pynone
      = Except.error "Dataset ID is not a valid Image or ImageCollection." := rfl

/-- C6 amended: rasterization by burning the constant 1 per feature happens
only in the untyped probing loader (data_process.py / buffer_method.py), and
only as its third fallback, after the Image and ImageCollection probes have
both failed remotely. -/
theorem c6_amended_untyped_rasterizes (id : String) (s e : Option String) :
    (DataProcess.load_gee_as_image ⟨false, false, true⟩ id s e).1
      = Except.ok (EEImage.rasterized id 1) ∧
    (DataProcess.load_gee_as_image ⟨false, false, true⟩ id s e).2
      = [Strategy.image, Strategy.imageCollection, Strategy.featureCollection] :=
  ⟨rfl, rfl⟩

/-- C9: the projected-frame identifier is a function of the longitude alone
— the latitude argument is never consulted — and it always begins with the
northern-hemisphere root `EPSG:326`; e.g. the southern-hemisphere point
(lon −121.3153, lat −44) still gets the northern code `EPSG:32610`. -/
theorem c9_hemisphere_blind_utm (lon lat lat2 : ℚ) :
    utm_crs ⟨lon, lat⟩ = utm_crs ⟨lon, lat2⟩ ∧
    utm_crs ⟨lon, lat⟩ = "EPSG:326" ++ toString (utmZone lon) ∧
    utm_crs ⟨-1213153/10000, -44⟩ = "EPSG:32610" ∧
    ("EPSG:32610" : String) ≠ "EPSG:32710" := by
  refine ⟨rfl, rfl, ?_, by decide⟩
  have hz : utmZone (-1213153/10000 : ℚ) = 10 := by
    have h9 : ⌊((-1213153/10000 : ℚ) + 180) / 6⌋ = 9 := by
      rw [Int.floor_eq_iff]
      norm_num
    rw [utmZone, h9]
    decide
  rw [utm_crs, hz]
  decide

/-- C4 counterexample: in `buffer_coordinates`, two successive dropdown
changes each resolve their id to a url, yet the process has then issued
three catalog requests (one at construction plus one per change) — not at
most one. -/
theorem c4_counterexample_refetches_catalog :
    (BufferCoordinates.on_dropdown_change
        [⟨"ds1", "Dataset One", "urlOne"⟩, ⟨"ds2", "Dataset Two", "urlTwo"⟩] "ds1").1
      = some "urlOne" ∧
    (BufferCoordinates.on_dropdown_change
        [⟨"ds1", "Dataset One", "urlOne"⟩, ⟨"ds2", "Dataset Two", "urlTwo"⟩] "ds2").1
      = some "urlTwo" ∧
    BufferCoordinates.totalCatalogFetches
        [⟨"ds1", "Dataset One", "urlOne"⟩, ⟨"ds2", "Dataset Two", "urlTwo"⟩]
        ["ds1", "ds2"] = 3 ∧
    ¬ BufferCoordinates.totalCatalogFetches
        [⟨"ds1", "Dataset One", "urlOne"⟩, ⟨"ds2", "Dataset Two", "urlTwo"⟩]
        ["ds1", "ds2"] ≤ 1 :=
  ⟨by decide, by decide, by decide, by decide⟩

/-- C4 amended: the `buffer_coordinates` resolver performs no memoization at
all — every dropdown change with a truthy value issues its own catalog
request, so after any event sequence the process has issued one request per
truthy change plus the one made at construction. -/
theorem c4_amended_one_fetch_per_change (network : List CatalogItem)
    (events : List String) :
    BufferCoordinates.totalCatalogFetches network events
      = 1 + (events.filter fun e => e != "").length := by
  unfold BufferCoordinates.totalCatalogFetches
  induction events with
  | nil => rfl
  | cons e es ih =>
      simp only [List.map_cons, List.sum_cons, List.filter_cons]
      by_cases he : e != ""
      · simp only [BufferCoordinates.on_dropdown_change, he, if_true,
          List.length_cons] at ih ⊢
        omega
      · simp only [BufferCoordinates.on_dropdown_change, he, if_false,
          Bool.false_eq_true] at ih ⊢
        omega

/-- C1: with `radius_feet > 0` and `sample_count ∈ [1,50]`,
`create_obfuscated_points` returns exactly `sample_count` coordinates; in the
projected frame each returned coordinate is the image of a center whose
distance from the projected input point is exactly the drawn distance
`d ∈ [0, radius_feet * 0.3048]`, so the original point lies within the
radius of every returned center; and a returned coordinate equals the
(reprojected) input exactly on the zero-distance draw.  `toLatlon` is the
inverse projection, injective per the spec's round-trip law. -/
theorem c1_obfuscate_points_spec
    (toLatlon : Pt → Pt) (xy : Pt) (radius_feet : ℚ) (no_samp : ℤ)
    (draws : ℕ → Draw)
    (hinj : Function.Injective toLatlon)
    (hr : 0 < radius_feet)
    (hn1 : 1 ≤ no_samp) (hn50 : no_samp ≤ 50)
    (hdraw : ∀ i, i < no_samp.toNat →
      (draws i).c ^ 2 + (draws i).s ^ 2 = 1 ∧
      0 ≤ (draws i).d ∧ (draws i).d ≤ radiusMeters radius_feet) :
    ((BufferAndSample.create_obfuscated_points toLatlon xy no_samp draws).length : ℤ)
        = no_samp ∧
    ∀ i (hi : i < (BufferAndSample.create_obfuscated_points toLatlon xy no_samp
        draws).length),
      (BufferAndSample.create_obfuscated_points toLatlon xy no_samp draws).get ⟨i, hi⟩
          = toLatlon (obfuscatedCenter xy (draws i)) ∧
      sqDist (obfuscatedCenter xy (draws i)) xy = (draws i).d ^ 2 ∧
      sqDist (obfuscatedCenter xy (draws i)) xy ≤ radiusMeters radius_feet ^ 2 ∧
      ((BufferAndSample.create_obfuscated_points toLatlon xy no_samp draws).get
            ⟨i, hi⟩ = toLatlon xy ↔ (draws i).d = 0) := by
  have hlen : (BufferAndSample.create_obfuscated_points toLatlon xy no_samp
      draws).length = no_samp.toNat := by
    simp [BufferAndSample.create_obfuscated_points]
  constructor
  · rw [hlen]
    exact Int.toNat_of_nonneg (by omega)
  · intro i hi
    have hin : i < no_samp.toNat := hlen ▸ hi
    have hget : (BufferAndSample.create_obfuscated_points toLatlon xy no_samp
        draws).get ⟨i, hi⟩ = toLatlon (obfuscatedCenter xy (draws i)) := by
      simp [BufferAndSample.create_obfuscated_points, List.get_eq_getElem]
    obtain ⟨hcs, hd0, hdle⟩ := hdraw i hin
    have hsq : sqDist (obfuscatedCenter xy (draws i)) xy = (draws i).d ^ 2 := by
      have hfac : sqDist (obfuscatedCenter xy (draws i)) xy
          = (draws i).d ^ 2 * ((draws i).c ^ 2 + (draws i).s ^ 2) := by
        simp only [sqDist, obfuscatedCenter]
        ring
      rw [hfac, hcs, mul_one]
    refine ⟨hget, hsq, ?_, ?_⟩
    · rw [hsq]
      exact pow_le_pow_left hd0 hdle 2
    · rw [hget]
      constructor
      · intro h
        have hc : obfuscatedCenter xy (draws i) = xy := hinj h
        obtain ⟨px, py⟩ := xy
        simp only [obfuscatedCenter, Pt.mk.injEq, sub_eq_self] at hc
        by_contra hd
        rcases mul_eq_zero.mp hc.1 with h1 | h1
        · exact hd h1
        · rcases mul_eq_zero.mp hc.2 with h2 | h2
          · exact hd h2
          · rw [h1, h2] at hcs
            norm_num at hcs
      · intro h
        have hc : obfuscatedCenter xy (draws i) = xy := by
          simp [obfuscatedCenter, h]
        rw [hc]

/-- C1 witness: a concrete instance (one draw of distance `381/2500` meters
at the rational direction `(3/5, 4/5)`, radius one foot, identity inverse
projection) satisfying every hypothesis of `c1_obfuscate_points_spec`. -/
theorem c1_obfuscate_points_spec_witness :
    (0 : ℚ) < 1 ∧
    ((BufferAndSample.create_obfuscated_points (fun p => p) ⟨0, 0⟩ 1
        (fun _ => ⟨3/5, 4/5, 381/2500⟩)).length : ℤ) = 1 ∧
    ∀ i (hi : i < (BufferAndSample.create_obfuscated_points (fun p => p) ⟨0, 0⟩ 1
        (fun _ => ⟨3/5, 4/5, 381/2500⟩)).length),
      (BufferAndSample.create_obfuscated_points (fun p => p) ⟨0, 0⟩ 1
          (fun _ => ⟨3/5, 4/5, 381/2500⟩)).get ⟨i, hi⟩
          = (fun p => p) (obfuscatedCenter ⟨0, 0⟩ ⟨3/5, 4/5, 381/2500⟩) ∧
      sqDist (obfuscatedCenter ⟨0, 0⟩ ⟨3/5, 4/5, 381/2500⟩) ⟨0, 0⟩
          = (381/2500 : ℚ) ^ 2 ∧
      sqDist (obfuscatedCenter ⟨0, 0⟩ ⟨3/5, 4/5, 381/2500⟩) ⟨0, 0⟩
          ≤ radiusMeters 1 ^ 2 ∧
      ((BufferAndSample.create_obfuscated_points (fun p => p) ⟨0, 0⟩ 1
            (fun _ => ⟨3/5, 4/5, 381/2500⟩)).get ⟨i, hi⟩ = (fun p => p) (⟨0, 0⟩ : Pt)
        ↔ (381/2500 : ℚ) = 0) :=
  ⟨by norm_num,
    c1_obfuscate_points_spec (fun p => p) ⟨0, 0⟩ 1 1 (fun _ => ⟨3/5, 4/5, 381/2500⟩)
      (fun a b h => h) (by norm_num) (by norm_num) (by norm_num)
      (fun i _ => ⟨by norm_num, by norm_num, by norm_num [radiusMeters]⟩)⟩

/-- C5: when the dataset type is not resolved, the untyped loader attempts
Image, then ImageCollection (median composite), then FeatureCollection
(rasterized), strictly in that order, stopping at the first remote success,
and it fails (with the `ValueError` the spec calls DatasetResolutionError)
exactly when all three probes fail. -/
theorem c5_fallback_order (o : GeeOracle) (id : String) (s e : Option String) :
    ((∃ msg, (DataProcess.load_gee_as_image o id s e).1 = Except.error msg) ↔
      o.imageOk = false ∧ o.collectionOk = false ∧ o.featureOk = false) ∧
    (DataProcess.load_gee_as_image o id s e).2
      = [Strategy.image, Strategy.imageCollection, Strategy.featureCollection].take
          (if o.imageOk then 1 else if o.collectionOk then 2 else 3) ∧
    (o.imageOk = true →
      (DataProcess.load_gee_as_image o id s e).1 = Except.ok (EEImage.image id)) ∧
    (o.imageOk = false → o.collectionOk = true →
      ∃ filt, (DataProcess.load_gee_as_image o id s e).1
        = Except.ok (EEImage.medianOf id filt)) ∧
    (o.imageOk = false → o.collectionOk = false → o.featureOk = true →
      (DataProcess.load_gee_as_image o id s e).1
        = Except.ok (EEImage.rasterized id 1)) := by
  obtain ⟨i, c, f⟩ := o
  cases i <;> cases c <;> cases f <;>
    simp [DataProcess.load_gee_as_image]

/-- C5 witness: the all-fail oracle makes the loader try all three
strategies and report the resolution error. -/
theorem c5_fallback_order_witness :
    (∃ msg, (DataProcess.load_gee_as_image ⟨false, false, false⟩ "ds"
        Option.none Option.none).1 = Except.error msg) ∧
    (DataProcess.load_gee_as_image ⟨false, false, false⟩ "ds"
        Option.none Option.none).2
      = [Strategy.image, Strategy.imageCollection, Strategy.featureCollection].take
          (if (false : Bool) then 1 else if (false : Bool) then 2 else 3) :=
  ⟨(c5_fallback_order ⟨false, false, false⟩ "ds" Option.none Option.none).1.mpr
      ⟨rfl, rfl, rfl⟩,
    (c5_fallback_order ⟨false, false, false⟩ "ds" Option.none Option.none).2.1⟩

/-- Helper for C10: for a one-digit zone the constructed identifier differs
from the intended five-digit EPSG code. -/
theorem utm_zone_one_digit_mismatch (z : ℤ) (h1 : 1 ≤ z) (h9 : z ≤ 9) :
    "EPSG:326" ++ toString z ≠ "EPSG:" ++ toString (32600 + z) := by
  interval_cases z <;> decide

/-- Helper for C10: for a two-digit zone the constructed identifier equals
the intended five-digit EPSG code. -/
theorem utm_zone_two_digit_match (z : ℤ) (h10 : 10 ≤ z) (h60 : z ≤ 60) :
    "EPSG:326" ++ toString z = "EPSG:" ++ toString (32600 + z) := by
  interval_cases z <;> decide

/-- Helper for C10: longitudes in `[-180, -126)` give zones 1 through 9. -/
theorem utmZone_bounds_low (lon : ℚ) (h1 : -180 ≤ lon) (h2 : lon < -126) :
    1 ≤ utmZone lon ∧ utmZone lon ≤ 9 := by
  unfold utmZone
  constructor
  · have h : (0 : ℤ) ≤ ⌊(lon + 180) / 6⌋ := by
      apply Int.le_floor.mpr
      push_cast
      apply div_nonneg (by linarith) (by norm_num)
    omega
  · have h : ⌊(lon + 180) / 6⌋ < 9 := by
      apply Int.floor_lt.mpr
      push_cast
      rw [div_lt_iff (by norm_num : (0 : ℚ) < 6)]
      linarith
    omega

/-- Helper for C10: longitudes in `[-126, 180)` give zones 10 through 60. -/
theorem utmZone_bounds_high (lon : ℚ) (h1 : -126 ≤ lon) (h2 : lon < 180) :
    10 ≤ utmZone lon ∧ utmZone lon ≤ 60 := by
  unfold utmZone
  constructor
  · have h : (9 : ℤ) ≤ ⌊(lon + 180) / 6⌋ := by
      apply Int.le_floor.mpr
      push_cast
      rw [le_div_iff (by norm_num : (0 : ℚ) < 6)]
      linarith
    omega
  · have h : ⌊(lon + 180) / 6⌋ < 60 := by
      apply Int.floor_lt.mpr
      push_cast
      rw [div_lt_iff (by norm_num : (0 : ℚ) < 6)]
      linarith
    omega

/-- C10: for longitudes in `[-180, -126)` the zone is the single digit 1–9
and the constructed identifier (`EPSG:326` ++ digit, e.g. `EPSG:3261`) is
not the intended five-digit EPSG code of the zone; for longitudes giving
zones 10–60 the constructed identifier coincides with the intended code. -/
theorem c10_utm_code_digits (lon lat : ℚ) :
    (-180 ≤ lon → lon < -126 →
      (1 ≤ utmZone lon ∧ utmZone lon ≤ 9) ∧
      utm_crs ⟨lon, lat⟩ ≠ intendedUtmCrs lon) ∧
    (-126 ≤ lon → lon < 180 →
      (10 ≤ utmZone lon ∧ utmZone lon ≤ 60) ∧
      utm_crs ⟨lon, lat⟩ = intendedUtmCrs lon) := by
  constructor
  · intro h1 h2
    have hb := utmZone_bounds_low lon h1 h2
    exact ⟨hb, utm_zone_one_digit_mismatch (utmZone lon) hb.1 hb.2⟩
  · intro h1 h2
    have hb := utmZone_bounds_high lon h1 h2
    exact ⟨hb, utm_zone_two_digit_match (utmZone lon) hb.1 hb.2⟩

/-- C10 witness: longitude −130 (zone 9) yields `EPSG:3269`, which is not
the intended `EPSG:32609`; longitude 100 (zone 47) yields the intended
`EPSG:32647`. -/
theorem c10_utm_code_digits_witness :
    ((1 ≤ utmZone (-130) ∧ utmZone (-130) ≤ 9) ∧
      utm_crs ⟨-130, 0⟩ ≠ intendedUtmCrs (-130)) ∧
    ((10 ≤ utmZone 100 ∧ utmZone 100 ≤ 60) ∧
      utm_crs ⟨100, 0⟩ = intendedUtmCrs 100) :=
  ⟨(c10_utm_code_digits (-130) 0).1 (by norm_num) (by norm_num),
    (c10_utm_code_digits 100 0).2 (by norm_num) (by norm_num)⟩

/-- A coarse counter-clockwise unit-direction table (the four axis
directions), used only to instantiate theorems that hold for *every*
counter-clockwise table; it does not stand in for shapely's `resolution=32`
table, which lives in `RealModel`. -/
def squareDirs : List Pt := [⟨1, 0⟩, ⟨0, 1⟩, ⟨-1, 0⟩, ⟨0, -1⟩]

/-- Helper for C7: the pair of the angle-0 and angle-`2*pi/128` vertices is
an edge of the `resolution=32` ring. -/
theorem ring_edge_mem (center : RealModel.Pt) (r : ℝ) :
    (RealModel.shapelyVertex center r 0, RealModel.shapelyVertex center r 1) ∈
      RealModel.edgesOf (RealModel.shapelyRing center r) := by
  have hlen : (RealModel.shapelyRing center r).length = 128 := by
    rw [RealModel.shapelyRing, List.length_map, List.length_range]
  have h0 : (RealModel.shapelyRing center r)[0]?
      = some (RealModel.shapelyVertex center r 0) := by
    rw [RealModel.shapelyRing, List.getElem?_map, List.getElem?_range (by norm_num)]
    rfl
  have h1 : (RealModel.shapelyRing center r)[1]?
      = some (RealModel.shapelyVertex center r 1) := by
    rw [RealModel.shapelyRing, List.getElem?_map, List.getElem?_range (by norm_num)]
    rfl
  have hrot : ((RealModel.shapelyRing center r).rotate 1)[0]?
      = some (RealModel.shapelyVertex center r 1) := by
    rw [List.rotate_eq_drop_append_take (by rw [hlen]; norm_num)]
    rw [List.getElem?_append]
    rw [if_pos (by rw [List.length_drop, hlen]; norm_num)]
    rw [List.getElem?_drop]
    exact h1
  apply List.mem_iff_getElem?.mpr
  exact ⟨0, by rw [RealModel.edgesOf]; exact List.getElem?_zip_eq_some.mpr ⟨h0, hrot⟩⟩

/-- C7 counterexample: in the center-randomized variant
(buffer_coordinates.py), the draw `angle = pi/128` (the midpoint of the
ring's first vertex sector) and `distance = 0.9999 * radius_m` — a valid
draw, since `distance ∈ [0, radius_m)` and `angle ∈ [0, 2*pi)` — pushes the
buffer's center so far from the input point that the input point falls
beyond the chord between the angle-0 and angle-`2*pi/128` vertices of the
actual `resolution=32` ring (whose apothem is `radius_m * cos(pi/128) ≤
radius_m * 8191/8192 < 0.9999 * radius_m`): `contains(p)` is false. -/
theorem c7_counterexample_random_center_excludes_point :
    (0 : ℝ) < 1250/381 ∧
    (0 : ℝ) ≤ 9999/10000 ∧
    (9999/10000 : ℝ) < RealModel.radiusMeters (1250/381) ∧
    0 ≤ Real.pi/128 ∧ Real.pi/128 < 2 * Real.pi ∧
    ¬ RealModel.containsPoint
      (RealModel.BufferCoordinates.create_obfuscated_circle (fun p => p) ⟨0, 0⟩
        (1250/381) (Real.pi/128) (9999/10000)) ⟨0, 0⟩ := by
  have hpi := Real.pi_pos
  refine ⟨by norm_num, by norm_num, ?_, by positivity, by linarith, ?_⟩
  · rw [RealModel.radiusMeters]
    norm_num
  intro h
  have hlt : Real.pi / 128 < Real.pi := div_lt_self hpi (by norm_num)
  have hs : 0 < Real.sin (Real.pi / 128) :=
    Real.sin_pos_of_pos_of_lt_pi (by positivity) hlt
  have hcos : Real.cos (Real.pi / 128) < 9999/10000 := by
    have h1 : |Real.pi / 128| ≤ Real.pi := by
      rw [abs_of_nonneg (by positivity)]
      linarith
    have h2 := Real.cos_le_one_sub_mul_cos_sq h1
    have h3 : 2 / Real.pi ^ 2 * (Real.pi / 128) ^ 2 = 2 / 16384 := by
      field_simp
      ring
    rw [h3] at h2
    have h4 : (1 : ℝ) - 2 / 16384 < 9999/10000 := by norm_num
    linarith
  have hpoly : RealModel.BufferCoordinates.create_obfuscated_circle (fun p => p)
      ⟨0, 0⟩ (1250/381) (Real.pi/128) (9999/10000)
      = RealModel.shapelyRing ⟨(0:ℝ) - 9999/10000 * Real.cos (Real.pi/128),
          (0:ℝ) - 9999/10000 * Real.sin (Real.pi/128)⟩
          (RealModel.radiusMeters (1250/381)) := by
    rw [RealModel.BufferCoordinates.create_obfuscated_circle, List.map_id']
  rw [hpoly] at h
  have hc := h _ (ring_edge_mem _ _)
  have hr1 : RealModel.radiusMeters (1250/381 : ℝ) = 1 := by
    rw [RealModel.radiusMeters]
    norm_num
  rw [hr1, RealModel.crossAt] at hc
  simp only [RealModel.shapelyVertex] at hc
  norm_num at hc
  have e2 : (2 * Real.pi / 128 : ℝ) = 2 * (Real.pi / 128) := by ring
  rw [e2, Real.cos_two_mul, Real.sin_two_mul] at hc
  nlinarith [hc, mul_pos hs (sub_pos.mpr hcos)]

/-- Helper for C7: reprojecting every vertex maps the edge list
componentwise. -/
theorem edgesOf_map (f : Pt → Pt) (l : List Pt) :
    edgesOf (l.map f) = (edgesOf l).map (Prod.map f f) := by
  unfold edgesOf
  rw [← List.map_rotate, List.zip_map]

/-- Helper for C7: a buffer ring built on a counter-clockwise direction
table strictly contains its own center. -/
theorem containsPoint_bufferPolygon_center (center : Pt) (r : ℚ)
    (dirs : List Pt) (hr : 0 < r) (hccw : ccwDirs dirs) :
    containsPoint (bufferPolygon center r dirs) center := by
  intro e he
  unfold bufferPolygon at he
  rw [edgesOf_map, List.mem_map] at he
  obtain ⟨⟨u, v⟩, huv, rfl⟩ := he
  have h := hccw (u, v) huv
  show 0 < crossAt ⟨center.x + r * u.x, center.y + r * u.y⟩
      ⟨center.x + r * v.x, center.y + r * v.y⟩ center
  have heq : crossAt (⟨center.x + r * u.x, center.y + r * u.y⟩ : Pt)
      (⟨center.x + r * v.x, center.y + r * v.y⟩ : Pt) center
      = r ^ 2 * (u.x * v.y - u.y * v.x) := by
    simp only [crossAt]
    ring
  rw [heq]
  exact mul_pos (pow_pos hr 2) h

/-- C7 amended: the guarantee `build_circle(p, r).contains(p)` holds for the
point-buffered variant (geojson_buffering.py), where the buffer is centered
on the projected point itself: for every positive radius and
counter-clockwise direction table, the projected point lies strictly inside
the ring. -/
theorem c7_amended_point_buffered_contains (xy : Pt) (radius_feet : ℚ)
    (dirs : List Pt) (hr : 0 < radius_feet) (hccw : ccwDirs dirs) :
    containsPoint
      (GeojsonBuffering.create_obfuscated_circle (fun p => p) xy radius_feet dirs)
      xy := by
  have h1 : GeojsonBuffering.create_obfuscated_circle (fun p => p) xy radius_feet
      dirs = bufferPolygon xy (radiusMeters radius_feet) dirs := by
    unfold GeojsonBuffering.create_obfuscated_circle
    simp
  rw [h1]
  have hrm : 0 < radiusMeters radius_feet := by
    unfold radiusMeters
    positivity
  exact containsPoint_bufferPolygon_center xy (radiusMeters radius_feet) dirs hrm hccw

/-- C7 amended witness: the point-buffered ring on the axis-direction table
with a one-foot radius strictly contains its input point. -/
theorem c7_amended_point_buffered_contains_witness :
    (0 : ℚ) < 1250/381 ∧ ccwDirs squareDirs ∧
    containsPoint
      (GeojsonBuffering.create_obfuscated_circle (fun p => p) ⟨0, 0⟩ (1250/381)
        squareDirs) ⟨0, 0⟩ :=
  ⟨by norm_num, by norm_num [ccwDirs, squareDirs, edgesOf, List.rotate],
    c7_amended_point_buffered_contains ⟨0, 0⟩ (1250/381) squareDirs (by norm_num)
      (by norm_num [ccwDirs, squareDirs, edgesOf, List.rotate])⟩

/-- C8: the extraction flow emits exactly one output row per input
geometry, in input order (matching identifiers index by index), and a
geometry for which the remote sample yields no valid raster data produces a
row of missing values rather than being dropped.  The remote per-feature
sampler is spec-modelled (see `DataProcess.extract_values_to_points`). -/
theorem c8_extraction_row_invariant
    (sample : Feature → Option (List (String × ℚ)))
    (bandNames : List String) (rows : List InputRow) :
    (DataProcess.get_coordinate_data sample bandNames rows).length = rows.length ∧
    (∀ i : ℕ, ((DataProcess.get_coordinate_data sample bandNames rows)[i]?).map
        OutputRow.plot_ID = (rows[i]?).map InputRow.plot_ID) ∧
    (∀ (i : ℕ) (r : InputRow), rows[i]? = some r →
      sample ⟨r.plot_ID, r.lon, r.lat⟩ = Option.none →
      ∃ out, (DataProcess.get_coordinate_data sample bandNames rows)[i]? = some out ∧
        out.plot_ID = r.plot_ID ∧ ∀ b ∈ out.bands, b.2 = Option.none) := by
  unfold DataProcess.get_coordinate_data DataProcess.extract_values_to_points
    DataProcess.toFeatures
  refine ⟨by simp, ?_, ?_⟩
  · intro i
    rw [List.getElem?_map, List.getElem?_map]
    cases h : rows[i]? with
    | none => rfl
    | some r =>
        cases hs : sample ⟨r.plot_ID, r.lon, r.lat⟩ <;> simp [hs]
  · intro i r hri hs
    rw [List.getElem?_map, List.getElem?_map, hri]
    refine ⟨_, rfl, ?_, ?_⟩
    · simp [hs]
    · intro b hb
      simp only [Option.map_some, hs] at hb
      simp only [List.mem_map] at hb
      obtain ⟨n, _, hn⟩ := hb
      rw [← hn]

/-- Concrete sampler for the C8 witness: the remote service finds no valid
raster data at plot `B` and one elevation band elsewhere. -/
def w8sample : Feature → Option (List (String × ℚ)) :=
  fun f => if f.plot_ID == "B" then Option.none else some [("elev", 10)]

/-- Concrete three-point input table for the C8 witness. -/
def w8rows : List InputRow := [⟨"A", 44, -121⟩, ⟨"B", 45, -122⟩, ⟨"C", 46, -123⟩]

/-- C8 witness: on the three-point table whose middle point fails to sample,
the output still has a row at index 1, carrying plot id `B` with every band
missing. -/
theorem c8_extraction_row_invariant_witness :
    w8rows[1]? = some ⟨"B", 45, -122⟩ ∧
    w8sample ⟨"B", -122, 45⟩ = Option.none ∧
    (∃ out, (DataProcess.get_coordinate_data w8sample ["elev"] w8rows)[1]?
        = some out ∧ out.plot_ID = "B" ∧ ∀ b ∈ out.bands, b.2 = Option.none) :=
  ⟨by decide, by decide,
    (c8_extraction_row_invariant w8sample ["elev"] w8rows).2.2 1 ⟨"B", 45, -122⟩
      (by decide) (by decide)⟩

end Skiba
